import Mathlib

set_option maxRecDepth 16000

/-!
Shallow embedding of `gitlab_mr.py`, the core module of the `mcp-gitlab-mr`
repository: a GitLab API client (`GitLabAPI`) and two tool operations
(`list_mr`, `download_diff`).

The network is modelled by passing, per invocation, the response the remote
would return for each endpoint the invocation may hit (`JsonResponse` /
`RawResponse` values).  Operations return, besides their Python return value,
the list of HTTP requests they issued (`Request`) and, for `download_diff`,
the list of file writes performed, so that "issues zero network calls" and
"writes the file" become statements about these lists.  Python exceptions
(`raise ValueError(...)` and the `except` clauses) are modelled with
`Except String`: the carried string is `str(e)` as the tool boundary
(`except Exception as e: return {"error": str(e)}`) would render it.
-/

namespace GitLabMr

/-- A user record as the code reads it: the `id` key (direct indexing) and
the `email` key, read with `.get` and so possibly absent, hence `Option`. -/
structure User where
  id : Int
  email : Option String
deriving DecidableEq

/-- The sub-record the code reads from the `author` field of a raw record
(the `name` key directly, the `email` key via `.get` with empty default)
and from each element of `assignees` (the `name` key). -/
structure Author where
  name : String
  email : Option String
deriving DecidableEq

/-- A raw merge-request record, holding exactly the fields `gitlab_mr.py`
reads.  Keys the code accesses with `[...]` (raising `KeyError` when absent)
are plain fields; keys accessed with `.get(...)` are `Option` (with absent
`assignees` / `labels` modelled as `[]`, which the code treats identically:
`.get` with falsy result / `.get(..., [])`). -/
structure MergeRequest where
  iid : Nat
  title : String
  state : String
  author : Author
  source_branch : String
  target_branch : String
  created_at : String
  updated_at : String
  web_url : String
  description : Option String
  assignees : List Author
  labels : List String
  upvotes : Option Nat
  downvotes : Option Nat
deriving DecidableEq

/-- Outcome of one HTTP exchange against a JSON endpoint, as seen by
`_make_request`: a decoded body, a 2xx body that `json.loads` rejects
(`badJson` carries the `JSONDecodeError` message), an `HTTPError` with a
status code and an optional readable body (`e.fp` may be absent), or a
`URLError` with a reason. -/
inductive JsonResponse (α : Type) where
  | success (body : α)
  | badJson (msg : String)
  | httpError (code : Nat) (body : Option String)
  | urlError (reason : String)
deriving DecidableEq

/-- Outcome of one HTTP exchange against the raw-diff endpoint (no JSON
decoding is attempted there). -/
inductive RawResponse where
  | success (body : String)
  | httpError (code : Nat) (body : Option String)
  | urlError (reason : String)
deriving DecidableEq

/-- One HTTP request issued by the client, identified by endpoint and the
parameters the caller passed. -/
inductive Request where
  | currentUser
  | userSearch (email : String)
  | mergeRequests (state scope : String) (author_id assignee_id : Option Int)
  | rawDiffs (mr_iid : String)
deriving DecidableEq

/-- `GitLabAPI._make_request(endpoint)` — issues the request and decodes the
JSON body; error mapping per `gitlab_mr.py` lines 77-86: 401 maps to the
fixed credential message, 404 names the endpoint, any other `HTTPError`
carries the status code and the body text (or the placeholder text
Unknown error when the body is unreadable), `URLError` carries the reason.  A `JSONDecodeError`
from `json.loads` is not caught there and propagates with its own message. -/
def pyMakeRequest {α : Type} (endpoint : String) (resp : JsonResponse α) : Except String α :=
  match resp with
  | .success b => .ok b
  | .badJson msg => .error msg
  | .httpError code body =>
      if code = 401 then .error ("Authentication failed. Check your GITLAB_TOKEN")
      else if code = 404 then .error ("Resource not found: " ++ endpoint)
      else .error ("API request failed with status " ++ toString code ++ ": " ++
                   body.getD ("Unknown error"))
  | .urlError reason => .error ("Network error: " ++ reason)

/-- The client instance: base URL, token, project id and the lazily
populated `self.current_user` slot (`None` at construction). -/
structure GitLabAPI where
  base_url : String
  token : String
  project_id : String
  current_user : Option User
deriving DecidableEq

/-- Environment variables the module reads (`os.getenv`); `none` models an
unset variable. -/
structure Env where
  gitlab_token : Option String
  project_id : Option String
  download_path : Option String
deriving DecidableEq

/-- Python truthiness of an optional string: `None` and `""` are falsy. -/
def pyTruthyStr : Option String → Bool
  | none => false
  | some s => !s.isEmpty

/-- `GitLabAPI.__init__` / `_get_token`: reads `GITLAB_TOKEN`, failing when
it is unset or empty (`if not token:`); stores the base URL, token, project
id and an empty identity cache. -/
def GitLabAPI.init (gitlab_token : Option String) (project_id : String) :
    Except String GitLabAPI :=
  if pyTruthyStr gitlab_token then
    .ok ⟨"https://gitlab.com/api/v4", gitlab_token.getD (""), project_id, none⟩
  else
    .error ("GITLAB_TOKEN environment variable not set")

/-- `get_project_id()`: reads `PROJECT_ID`, failing when unset or empty. -/
def get_project_id (env : Env) : Except String String :=
  if pyTruthyStr env.project_id then .ok (env.project_id.getD (""))
  else .error ("PROJECT_ID environment variable not set")

/-- The lazy module-level client initialization shared by both tools:
`if gitlab_api is None: gitlab_api = GitLabAPI(get_project_id())`. -/
def ensureApi (env : Env) (g : Option GitLabAPI) : Except String GitLabAPI :=
  match g with
  | some api => .ok api
  | none =>
      match get_project_id env with
      | .error e => .error e
      | .ok pid => GitLabAPI.init env.gitlab_token pid

/-- `GitLabAPI.get_current_user`: returns the cached record when
`self.current_user` is populated; otherwise issues one GET to `/user`,
stores a successful result in the cache and returns it; a failure
propagates (as the raised `ValueError`) and leaves the cache empty.
Returns (result, updated client, requests issued). -/
def get_current_user (api : GitLabAPI) (resp : JsonResponse User) :
    Except String User × GitLabAPI × List Request :=
  match api.current_user with
  | some u => (.ok u, api, [])
  | none =>
      match pyMakeRequest ("/user") resp with
      | .ok u => (.ok u, ⟨api.base_url, api.token, api.project_id, some u⟩, [.currentUser])
      | .error e => (.error e, api, [.currentUser])

/-- The linear scan inside `get_user_by_email`: the first record whose
`email` key equals the query (case-sensitively), else `None`. -/
def findUserWithEmail (email : String) : List User → Option User
  | [] => none
  | u :: rest => if u.email = some email then some u else findUserWithEmail email rest

/-- `GitLabAPI.get_user_by_email(email)`: GETs `/users?search={email}`,
scans the result for an exact email match, and converts every failure
(`except Exception: return None`) into `None`. -/
def get_user_by_email (email : String) (resp : JsonResponse (List User)) : Option User :=
  match pyMakeRequest ("/users?search=" ++ email) resp with
  | .ok users => findUserWithEmail email users
  | .error _ => none

/-- Python truthiness of the optional integer filters in
`get_merge_requests` (`if author_id:`): `None` and `0` are falsy. -/
def pyTruthyInt : Option Int → Bool
  | none => false
  | some n => !(n = 0)

/-- The endpoint string `get_merge_requests` builds (author/assignee query
parameters appended only when truthy). -/
def mergeRequestsEndpoint (project_id state scope : String)
    (author_id assignee_id : Option Int) : String :=
  let e0 := "/projects/" ++ project_id ++ "/merge_requests?state=" ++ state ++
            "&scope=" ++ scope
  let e1 := if pyTruthyInt author_id then
              e0 ++ "&author_id=" ++ toString (author_id.getD 0)
            else e0
  if pyTruthyInt assignee_id then e1 ++ "&assignee_id=" ++ toString (assignee_id.getD 0)
  else e1

/-- `GitLabAPI.get_merge_requests(state, scope, author_id, assignee_id)`:
one GET to the listing endpoint; returns the decoded list or the mapped
error, together with the request issued (recording the arguments passed). -/
def get_merge_requests (api : GitLabAPI) (state scope : String)
    (author_id assignee_id : Option Int) (resp : JsonResponse (List MergeRequest)) :
    Except String (List MergeRequest) × List Request :=
  (pyMakeRequest (mergeRequestsEndpoint api.project_id state scope author_id assignee_id) resp,
   [.mergeRequests state scope author_id assignee_id])

/-- `GitLabAPI.get_raw_diffs(mr_iid)` (`gitlab_mr.py` lines 116-131): GETs
the raw-diff endpoint and returns the body as text.  Its own error mapping
differs from `_make_request`: every `HTTPError` — 401 included — maps to
the message Failed to get diffs with the status code and the body text
(or the placeholder text Unknown error when unreadable), and `URLError`
to a Network error message carrying the reason. -/
def get_raw_diffs (project_id mr_iid : String) (resp : RawResponse) : Except String String :=
  match resp with
  | .success b => .ok b
  | .httpError code body =>
      .error ("Failed to get diffs: " ++ toString code ++ " - " ++ body.getD ("Unknown error"))
  | .urlError reason => .error ("Network error: " ++ reason)

/-- The three-way state emoji of `_display_merge_requests`. -/
def statusEmoji (state : String) : String :=
  if state = "opened" then ("🟢") else if state = "closed" then ("🔴") else ("🟡")

/-- The four per-entry lines `_display_merge_requests` always appends before
the optional detail block (ordinal/title, author, branches, creation date
truncated to its first 10 characters). -/
def mrHeadLines (i : Nat) (mr : MergeRequest) : List String :=
  [ toString i ++ ". " ++ statusEmoji mr.state ++ " MR !" ++ toString mr.iid ++ " - " ++ mr.title
  , "   👤 Author: " ++ mr.author.name
  , "   🌿 Source: " ++ mr.source_branch ++ " → " ++ mr.target_branch
  , "   📅 Created: " ++ mr.created_at.take 10 ]

/-- The detail block of `_display_merge_requests`: description truncated to
100 characters plus an ellipsis, up/downvotes (`.get` defaults 0), then the
assignee and label lines only when those lists are non-empty, per the
truthiness tests the source applies to them. -/
def mrDetailLines (mr : MergeRequest) : List String :=
  [ "   📝 Description: " ++ (mr.description.getD ("No description")).take 100 ++ "..."
  , "   ✅ Upvotes: " ++ toString (mr.upvotes.getD 0)
  , "   ❌ Downvotes: " ++ toString (mr.downvotes.getD 0) ]
  ++ (if mr.assignees.isEmpty then []
      else ["   👥 Assignees: " ++ String.intercalate (", ") (mr.assignees.map Author.name)])
  ++ (if mr.labels.isEmpty then []
      else ["   🏷️  Labels: " ++ String.intercalate (", ") mr.labels])

/-- All lines one iteration of the display loop appends for entry `i`
(1-based, per `enumerate(merge_requests, 1)`): head lines, the detail block
when `show_details` is set, the URL line and a blank line. -/
def mrEntryLines (i : Nat) (mr : MergeRequest) (show_details : Bool) : List String :=
  mrHeadLines i mr ++ (if show_details then mrDetailLines mr else [])
    ++ ["   🔗 URL: " ++ mr.web_url, ""]

/-- The `output` list `_display_merge_requests` builds for a non-empty input
list: the count header, a 60-character separator, then the lines of each
entry.
`show_details` is forced on when exactly one record is present
(`if len(merge_requests) == 1: show_details = True`). -/
def displayOutput (merge_requests : List MergeRequest) (show_details : Bool) : List String :=
  let sd := if merge_requests.length = 1 then true else show_details
  ("\nMerge Requests (" ++ toString merge_requests.length ++ " found):")
    :: String.mk (List.replicate 60 '=')
    :: (merge_requests.enum.map (fun p => mrEntryLines (p.1 + 1) p.2 sd)).flatten

/-- `_display_merge_requests(merge_requests, show_details=False)`: the fixed
sentence for an empty list, otherwise the `output` lines joined with
newlines. -/
def _display_merge_requests (merge_requests : List MergeRequest) (show_details : Bool) : String :=
  if merge_requests.isEmpty then ("No merge requests found.")
  else String.intercalate ("\n") (displayOutput merge_requests show_details)

/-- The reshaped per-record dictionary `list_mr` returns in its
`merge_requests` field (`.get` defaults: empty string for author
email and description, empty list for assignees/labels, 0 for votes). -/
structure FormattedMR where
  iid : Nat
  title : String
  state : String
  author : String
  author_email : String
  source_branch : String
  target_branch : String
  created_at : String
  updated_at : String
  web_url : String
  description : String
  assignees : List String
  labels : List String
  upvotes : Nat
  downvotes : Nat
deriving DecidableEq

/-- The reshaping of one raw record in the result loop of `list_mr`. -/
def formatMR (mr : MergeRequest) : FormattedMR :=
  ⟨mr.iid, mr.title, mr.state, mr.author.name, mr.author.email.getD (""),
   mr.source_branch, mr.target_branch, mr.created_at, mr.updated_at, mr.web_url,
   mr.description.getD (""), mr.assignees.map Author.name, mr.labels,
   mr.upvotes.getD 0, mr.downvotes.getD 0⟩

/-- The `filter` echo in the success result of `list_mr`. -/
structure FilterEcho where
  state : String
  filter_by : String
  git_email : Option String
deriving DecidableEq

/-- Return value of the `list_mr` tool: either the `{"error": msg}` shape
(the validation returns and the boundary `except Exception` both produce
it) or the success dictionary. -/
inductive ListMrResult where
  | error (msg : String)
  | ok (display : String) (merge_requests : List FormattedMR) (total_count : Nat)
       (filter : FilterEcho)
deriving DecidableEq

/-- The responses the remote would give to the (at most three) requests one
`list_mr` invocation can issue. -/
structure ListMrOracle where
  users_response : JsonResponse (List User)
  current_user_response : JsonResponse User
  merge_requests_response : JsonResponse (List MergeRequest)
deriving DecidableEq

/-- The five valid `state` arguments of `list_mr`. -/
def valid_states : List String := ["opened", "closed", "merged", "locked", "all"]

/-- The fetch/format/reshape tail of `list_mr` (its steps after the user
filter is resolved): one `get_merge_requests` call with `scope="all"`,
display string via `_display_merge_requests` (default details), reshaped
records, count, and the filter echo; an `ApiError` becomes an error-only
result.  `reqs` are the requests already issued by identity resolution. -/
def listMrFetch (api : GitLabAPI) (orc : ListMrOracle) (state filter_by : String)
    (git_email : Option String) (author_id assignee_id : Option Int)
    (reqs : List Request) : ListMrResult × Option GitLabAPI × List Request :=
  match get_merge_requests api state ("all") author_id assignee_id
          orc.merge_requests_response with
  | (.error e, freqs) => (.error e, some api, reqs ++ freqs)
  | (.ok mrs, freqs) =>
      (.ok (_display_merge_requests mrs false) (mrs.map formatMR) mrs.length
         ⟨state, filter_by, git_email⟩,
       some api, reqs ++ freqs)

/-- The `list_mr(state="opened", filter_by="all", git_email=None)` tool
(`gitlab_mr.py` lines 179-268).  Returns (result, module-level client after
the call, requests issued).  Mirrors the source order: lazy client
initialization, `state` validation, identity resolution when `filter_by`
is one of the two user filters (email lookup only when `git_email` is
truthy, else `get_current_user`), then fetch/format/reshape; every raised
failure is caught at the boundary and returned as `{"error": str(e)}`. -/
def list_mr (env : Env) (g : Option GitLabAPI) (orc : ListMrOracle)
    (state filter_by : String) (git_email : Option String) :
    ListMrResult × Option GitLabAPI × List Request :=
  match ensureApi env g with
  | .error e => (.error e, g, [])
  | .ok api =>
      if valid_states.contains state = false then
        (.error ("Invalid state \u0027" ++ state ++ "\u0027. Must be one of: " ++
                 String.intercalate (", ") valid_states),
         some api, [])
      else if filter_by = "assigned_to_me" ∨ filter_by = "created_by_me" then
        if pyTruthyStr git_email then
          match get_user_by_email (git_email.getD ("")) orc.users_response with
          | none =>
              (.error ("User with email \u0027" ++ git_email.getD ("") ++
                       "\u0027 not found"),
               some api, [.userSearch (git_email.getD (""))])
          | some user =>
              if filter_by = "assigned_to_me" then
                listMrFetch api orc state filter_by git_email none (some user.id)
                  [.userSearch (git_email.getD (""))]
              else
                listMrFetch api orc state filter_by git_email (some user.id) none
                  [.userSearch (git_email.getD (""))]
        else
          match get_current_user api orc.current_user_response with
          | (.error e, api2, reqs) => (.error e, some api2, reqs)
          | (.ok cu, api2, reqs) =>
              if filter_by = "assigned_to_me" then
                listMrFetch api2 orc state filter_by git_email none (some cu.id) reqs
              else
                listMrFetch api2 orc state filter_by git_email (some cu.id) none reqs
      else
        listMrFetch api orc state filter_by git_email none none []

/-- Python `str.isdigit` on one character.  True exactly for Unicode
characters with `Numeric_Type` `Digit` or `Decimal`; beyond the ASCII
decimal digits this includes, among others, the superscript and subscript
digits and the decimal digits of other scripts.  The ranges below list the
ASCII digits and the non-ASCII digit characters this development evaluates
the predicate on (plus the common decimal-digit blocks). -/
def pyIsDigitChar (c : Char) : Bool :=
  (0x30 ≤ c.toNat && c.toNat ≤ 0x39)         -- ASCII digits
  || c.toNat = 0xB2 || c.toNat = 0xB3 || c.toNat = 0xB9   -- superscript two/three/one
  || (0x660 ≤ c.toNat && c.toNat ≤ 0x669)    -- Arabic-Indic digits
  || (0x6F0 ≤ c.toNat && c.toNat ≤ 0x6F9)    -- Extended Arabic-Indic digits
  || (0x966 ≤ c.toNat && c.toNat ≤ 0x96F)    -- Devanagari digits
  || c.toNat = 0x2070 || (0x2074 ≤ c.toNat && c.toNat ≤ 0x2079)  -- superscript 0, 4-9
  || (0x2080 ≤ c.toNat && c.toNat ≤ 0x2089)  -- subscript digits
  || (0xFF10 ≤ c.toNat && c.toNat ≤ 0xFF19)  -- fullwidth digits

/-- Python `str.isdigit`: at least one character and every character a
Unicode digit. -/
def pyStrIsDigit (s : String) : Bool :=
  !s.isEmpty && s.data.all pyIsDigitChar

/-- `os.path.join(output_dir, filename)` for the shapes arising here (the
generated filename never starts with a separator): appends a separator
unless `dir` already ends with one. -/
def pyPathJoin (dir file : String) : String :=
  if dir.data.getLast? = some '/' then dir ++ file else dir ++ "/" ++ file

/-- Return value of the `download_diff` tool: the `{"error": msg}` shape or
the success dictionary (id, raw diff text, its length, persistence flags). -/
inductive DownloadResult where
  | error (msg : String)
  | ok (mr_iid raw_diff : String) (diff_size : Nat) (saved_to_file : Bool)
       (file_path : Option String)
deriving DecidableEq

/-- Per-invocation externals of `download_diff`: the raw-diff response and
the `datetime.now().strftime("%Y-%m-%d_%H%M%S")` timestamp string. -/
structure DownloadOracle where
  raw_diff_response : RawResponse
  now_timestamp : String
deriving DecidableEq

/-- The `download_diff(mr_iid, save_to_file=True)` tool (`gitlab_mr.py`
lines 271-326).  Returns (result, module-level client after the call,
requests issued, file writes performed as (path, content) pairs).  Mirrors
the source order: lazy client initialization, the `mr_iid.isdigit()`
validation, the raw-diff fetch, then — only when `save_to_file` — the
`DOWNLOAD_PATH` lookup (unset or empty raises, caught at the boundary),
directory creation (not observable here), timestamped filename generation
and the write; failures become `{"error": str(e)}`. -/
def download_diff (env : Env) (g : Option GitLabAPI) (orc : DownloadOracle)
    (mr_iid : String) (save_to_file : Bool) :
    DownloadResult × Option GitLabAPI × List Request × List (String × String) :=
  match ensureApi env g with
  | .error e => (.error e, g, [], [])
  | .ok api =>
      if pyStrIsDigit mr_iid = false then
        (.error ("MR IID must be a number"), some api, [], [])
      else
        match get_raw_diffs api.project_id mr_iid orc.raw_diff_response with
        | .error e => (.error e, some api, [.rawDiffs mr_iid], [])
        | .ok raw_diff =>
            if save_to_file then
              if pyTruthyStr env.download_path = false then
                (.error ("DOWNLOAD_PATH environment variable not set"),
                 some api, [.rawDiffs mr_iid], [])
              else
                let filename := orc.now_timestamp ++ ".merge-diff-" ++ mr_iid ++ ".txt"
                let filepath := pyPathJoin (env.download_path.getD ("")) filename
                (.ok mr_iid raw_diff raw_diff.length true (some filepath),
                 some api, [.rawDiffs mr_iid], [(filepath, raw_diff)])
            else
              (.ok mr_iid raw_diff raw_diff.length false none,
               some api, [.rawDiffs mr_iid], [])

/-- The emoji each line of the detail block carries at character position 3
(after the three-space indent): description, upvotes, downvotes, assignees,
labels.  The label marker is the base character of the label emoji (its
variation selector follows at position 4). -/
def detailMarkers : List Char := ['📝', '✅', '❌', '👥', '🏷']

/-- A display line belonging to the detail block: its character at position
3 is one of the five detail markers.  Every line `mrDetailLines` produces
satisfies this, and no other line the formatter produces does. -/
def isDetailLine (line : String) : Prop :=
  ∃ c ∈ detailMarkers, line.data[3]? = some c

/-- A sequence of `get_current_user` calls against one client instance,
threading the cache; returns the per-call results, the final client, and
the total number of HTTP requests issued. -/
def runCurrentUserCalls :
    GitLabAPI → List (JsonResponse User) →
    List (Except String User) × GitLabAPI × Nat
  | api, [] => ([], api, 0)
  | api, r :: rs =>
      let step := get_current_user api r
      let rest := runCurrentUserCalls step.2.1 rs
      (step.1 :: rest.1, rest.2.1, step.2.2.length + rest.2.2)

/-! Concrete fixtures used by the closed instances below. -/

/-- A fully configured environment: credential, project id and download
path all set. -/
def envX : Env := ⟨some ("tok"), some ("proj"), some ("downloads")⟩

/-- The client `envX` constructs (empty identity cache). -/
def apiX : GitLabAPI := ⟨"https://gitlab.com/api/v4", "tok", "proj", none⟩

/-- Oracle: empty user search, current user with id 9, empty listing. -/
def orcEmpty : ListMrOracle := ⟨.success [], .success ⟨9, none⟩, .success []⟩

/-- Oracle whose user search returns one record (id 7) carrying the empty
string as its email, and whose current user has id 9. -/
def orcEmptyEmail : ListMrOracle :=
  ⟨.success [⟨7, some ("")⟩], .success ⟨9, none⟩, .success []⟩

/-- Oracle whose user search returns two records, the second (id 5) with a
matching email. -/
def orcLookup : ListMrOracle :=
  ⟨.success [⟨1, some ("z@w")⟩, ⟨5, some ("a@b.c")⟩], .success ⟨9, none⟩, .success []⟩

/-- Oracle delivering a raw diff successfully. -/
def orcDiff : DownloadOracle := ⟨.success ("DIFFTEXT"), "2024-01-15_143022"⟩

/-- Oracle delivering HTTP 401 with a readable body on the raw-diff
endpoint. -/
def orcDiff401 : DownloadOracle :=
  ⟨.httpError 401 (some ("401 page body")), "2024-01-15_143022"⟩

/-- The one-character string holding superscript two (U+00B2). -/
def supTwo : String := String.mk [Char.ofNat 0xB2]

/-- A sample raw merge-request record with description, one assignee and
one label. -/
def mrSample : MergeRequest :=
  ⟨12, "Fix bug", "opened", ⟨"Alice", none⟩, "feat", "main",
   "2024-01-02T03:04:05Z", "2024-01-03T00:00:00Z", "http://x", some ("desc"),
   [⟨"Bob", none⟩], ["bug"], some 2, some 1⟩

/-- A second sample record with every optional field absent. -/
def mrSample2 : MergeRequest :=
  ⟨13, "Add tests", "merged", ⟨"Carol", none⟩, "tests", "main",
   "2024-02-02T03:04:05Z", "2024-02-03T00:00:00Z", "http://y", none,
   [], [], none, none⟩

/-- A client whose identity cache is already populated (user id 3). -/
def apiCached : GitLabAPI :=
  ⟨"https://gitlab.com/api/v4", "tok", "proj", some ⟨3, some ("c@d")⟩⟩

/-- Oracle delivering HTTP 401 with a readable body on the listing
endpoint. -/
def orc401 : ListMrOracle :=
  ⟨.success [], .success ⟨9, none⟩, .httpError 401 (some ("secret body"))⟩

/-- Oracle delivering a one-element listing. -/
def orcOne : ListMrOracle :=
  ⟨.success [], .success ⟨9, none⟩, .success [mrSample]⟩

/-! Helper lemmas. -/

/-- The fetch tail of `list_mr` always reports the client unchanged and
appends exactly one listing request, recording the arguments it was
passed. -/
theorem listMrFetch_parts (api : GitLabAPI) (orc : ListMrOracle)
    (state filter_by : String) (git_email : Option String)
    (author_id assignee_id : Option Int) (reqs : List Request) :
    (listMrFetch api orc state filter_by git_email author_id assignee_id reqs).2.1 = some api ∧
    (listMrFetch api orc state filter_by git_email author_id assignee_id reqs).2.2 =
      reqs ++ [.mergeRequests state ("all") author_id assignee_id] := by
  unfold listMrFetch get_merge_requests
  rcases hres : pyMakeRequest (mergeRequestsEndpoint api.project_id state ("all") author_id
      assignee_id) orc.merge_requests_response with e | mrs <;> simp [hres]

/-- C2: for every `state` outside the valid enumeration, and any
`filter_by` / `git_email`, `list_mr` returns a result whose only field is
an error message listing the valid state values, and issues zero network
requests (provided the lazy client initialization succeeds, which itself
performs no network round trip). -/
theorem list_mr_invalid_state (env : Env) (g : Option GitLabAPI) (orc : ListMrOracle)
    (state filter_by : String) (git_email : Option String) (api : GitLabAPI)
    (hapi : ensureApi env g = .ok api)
    (hstate : valid_states.contains state = false) :
    list_mr env g orc state filter_by git_email =
      (.error ("Invalid state \u0027" ++ state ++ "\u0027. Must be one of: " ++
               String.intercalate (", ") valid_states),
       some api, []) := by
  unfold list_mr
  rw [hapi, hstate]
  rfl

/-- C2 witness: the concrete invalid state value bogus against a configured
environment. -/
theorem list_mr_invalid_state_witness :
    ensureApi envX none = .ok apiX ∧
    valid_states.contains ("bogus") = false ∧
    list_mr envX none orcEmpty ("bogus") ("all") none =
      (.error ("Invalid state \u0027bogus\u0027. Must be one of: " ++
               String.intercalate (", ") valid_states),
       some apiX, []) :=
  ⟨rfl, by decide,
   list_mr_invalid_state envX none orcEmpty ("bogus") ("all") none apiX rfl (by decide)⟩

/-- C10: `download_diff` with the empty string as `mr_iid` returns the
error-only result MR IID must be a number, with no network request and no
file write, for every `save_to_file` value — because the digit check of
`str.isdigit` demands at least one character, even though every character
of the empty string (vacuously) is a digit. -/
theorem download_diff_empty_iid (env : Env) (g : Option GitLabAPI) (orc : DownloadOracle)
    (save_to_file : Bool) (api : GitLabAPI)
    (hapi : ensureApi env g = .ok api) :
    download_diff env g orc ("") save_to_file =
      (.error ("MR IID must be a number"), some api, [], []) ∧
    ("").data.all pyIsDigitChar = true ∧
    pyStrIsDigit ("") = false := by
  refine ⟨?_, by decide, by decide⟩
  unfold download_diff
  rw [hapi]
  rfl

/-- C10 witness: the empty id against a configured environment, both
`save_to_file` values. -/
theorem download_diff_empty_iid_witness :
    ensureApi envX none = .ok apiX ∧
    download_diff envX none orcDiff ("") true =
      (.error ("MR IID must be a number"), some apiX, [], []) ∧
    download_diff envX none orcDiff ("") false =
      (.error ("MR IID must be a number"), some apiX, [], []) :=
  ⟨rfl,
   (download_diff_empty_iid envX none orcDiff true apiX rfl).1,
   (download_diff_empty_iid envX none orcDiff false apiX rfl).1⟩

/-- C8 counterexample: superscript two (U+00B2) is not a decimal digit
(`Char.isDigit` is false), so the claim requires an error-only result with
no network call; but Python `str.isdigit` accepts it, and `download_diff`
proceeds to the network and returns a success result. -/
theorem download_diff_superscript_counterexample :
    Char.isDigit (Char.ofNat 0xB2) = false ∧
    pyStrIsDigit supTwo = true ∧
    (download_diff envX (some apiX) orcDiff supTwo false).2.2.1 =
      [.rawDiffs supTwo] ∧
    (download_diff envX (some apiX) orcDiff supTwo false).1 =
      .ok supTwo ("DIFFTEXT") 8 false none := by
  refine ⟨by decide, by decide, by decide, ?_⟩
  rfl

/-- C8 amended: for every `mr_iid` rejected by Python `str.isdigit` — the
empty string, or any string containing a character outside the Unicode
digit characters (note: superscript digits such as U+00B2 are Unicode
digits without being decimal digits, and are accepted) — `download_diff`
returns the error-only result MR IID must be a number, performs no network
call and no file write, for both values of `save_to_file` (provided the
lazy client initialization succeeds). -/
theorem download_diff_nondigit_rejected (env : Env) (g : Option GitLabAPI)
    (orc : DownloadOracle) (mr_iid : String) (save_to_file : Bool) (api : GitLabAPI)
    (hapi : ensureApi env g = .ok api)
    (hdigit : pyStrIsDigit mr_iid = false) :
    download_diff env g orc mr_iid save_to_file =
      (.error ("MR IID must be a number"), some api, [], []) := by
  unfold download_diff
  rw [hapi, hdigit]
  rfl

/-- C8 witness: the concrete non-digit id abc against a configured
environment. -/
theorem download_diff_nondigit_rejected_witness :
    ensureApi envX none = .ok apiX ∧
    pyStrIsDigit ("abc") = false ∧
    download_diff envX none orcDiff ("abc") true =
      (.error ("MR IID must be a number"), some apiX, [], []) :=
  ⟨rfl, by decide,
   download_diff_nondigit_rejected envX none orcDiff ("abc") true apiX rfl (by decide)⟩

/-- C7: every successful `download_diff` call with `save_to_file = true`
writes exactly one file whose content is the raw diff text returned in the
structured result, and the returned `diff_size` is the length of that
text. -/
theorem download_diff_roundtrip (env : Env) (g : Option GitLabAPI) (orc : DownloadOracle)
    (mr_iid iid raw : String) (size : Nat) (saved : Bool) (path : Option String)
    (h : (download_diff env g orc mr_iid true).1 = .ok iid raw size saved path) :
    size = raw.length ∧ saved = true ∧
    ∃ p, path = some p ∧ (download_diff env g orc mr_iid true).2.2.2 = [(p, raw)] := by
  revert h
  unfold download_diff
  split
  · intro h; simp at h
  split
  · intro h; simp at h
  split
  · intro h; simp at h
  split
  · split
    · intro h; simp at h
    · intro h
      simp only [DownloadResult.ok.injEq] at h
      obtain ⟨h1, h2, h3, h4, h5⟩ := h
      subst h2; subst h3; subst h4; subst h5
      exact ⟨rfl, rfl, _, rfl, rfl⟩
  · intro h
    exact absurd rfl (by assumption)

/-- C7 witness: a concrete successful download with persistence. -/
theorem download_diff_roundtrip_witness :
    (download_diff envX none orcDiff ("123") true).1 =
      .ok ("123") ("DIFFTEXT") 8 true
        (some ("downloads/2024-01-15_143022.merge-diff-123.txt")) ∧
    (8 = ("DIFFTEXT" : String).length ∧ (true : Bool) = true ∧
     ∃ p, (some ("downloads/2024-01-15_143022.merge-diff-123.txt") : Option String) = some p ∧
       (download_diff envX none orcDiff ("123") true).2.2.2 = [(p, ("DIFFTEXT" : String))]) :=
  ⟨rfl,
   download_diff_roundtrip envX none orcDiff ("123") ("123") ("DIFFTEXT") 8 true
     (some ("downloads/2024-01-15_143022.merge-diff-123.txt")) rfl⟩

/-- A successful scan result is an exact email match, and it is the first
such record: the records before it all fail the match. -/
theorem findUserWithEmail_first (email : String) :
    ∀ (users : List User) (u : User), findUserWithEmail email users = some u →
      u.email = some email ∧
      ∃ l1 l2, users = l1 ++ u :: l2 ∧ ∀ v ∈ l1, v.email ≠ some email := by
  intro users
  induction users with
  | nil => intro u h; cases h
  | cons a rest ih =>
      intro u h
      by_cases ha : a.email = some email
      · rw [findUserWithEmail, if_pos ha] at h
        cases h
        exact ⟨ha, [], rest, rfl, by simp⟩
      · rw [findUserWithEmail, if_neg ha] at h
        obtain ⟨hu, l1, l2, hsplit, hmiss⟩ := ih u h
        refine ⟨hu, a :: l1, l2, by rw [hsplit]; rfl, ?_⟩
        intro v hv
        rcases List.mem_cons.mp hv with rfl | hv2
        · exact ha
        · exact hmiss v hv2

/-- A failed scan means no record in the list matches the email. -/
theorem findUserWithEmail_none (email : String) :
    ∀ (users : List User), findUserWithEmail email users = none →
      ∀ v ∈ users, v.email ≠ some email := by
  intro users
  induction users with
  | nil => intro _ v hv; cases hv
  | cons a rest ih =>
      intro h v hv
      by_cases ha : a.email = some email
      · rw [findUserWithEmail, if_pos ha] at h; cases h
      · rw [findUserWithEmail, if_neg ha] at h
        rcases List.mem_cons.mp hv with rfl | hv2
        · exact ha
        · exact ih h v hv2

/-- Every HTTP-error outcome of `_make_request` raises, whatever the
status code. -/
theorem pyMakeRequest_httpError_error {α : Type} (endpoint : String) (code : Nat)
    (body : Option String) :
    ∃ msg, pyMakeRequest endpoint (JsonResponse.httpError code body) =
      (Except.error msg : Except String α) := by
  simp only [pyMakeRequest]
  by_cases h1 : code = 401
  · rw [if_pos h1]; exact ⟨_, rfl⟩
  · rw [if_neg h1]
    by_cases h2 : code = 404
    · rw [if_pos h2]; exact ⟨_, rfl⟩
    · rw [if_neg h2]; exact ⟨_, rfl⟩

/-- C5: `get_user_by_email` never raises and never returns a mismatched
record: for every email and every outcome of the underlying request, it
returns either the first record of the decoded list whose email equals the
query exactly and case-sensitively, or `none`; every failure outcome
(HTTP error of any status, network failure, undecodable JSON) yields
`none`, and a `none` on a successful decode means no record matched. -/
theorem get_user_by_email_exact (email : String) (resp : JsonResponse (List User)) :
    (∀ u, get_user_by_email email resp = some u →
       u.email = some email ∧
       ∀ users, resp = .success users →
         ∃ l1 l2, users = l1 ++ u :: l2 ∧ ∀ v ∈ l1, v.email ≠ some email) ∧
    (∀ users, resp = .success users → get_user_by_email email resp = none →
       ∀ v ∈ users, v.email ≠ some email) ∧
    (∀ msg, resp = .badJson msg → get_user_by_email email resp = none) ∧
    (∀ code body, resp = .httpError code body → get_user_by_email email resp = none) ∧
    (∀ reason, resp = .urlError reason → get_user_by_email email resp = none) := by
  refine ⟨?_, ?_, ?_, ?_, ?_⟩
  · intro u h
    cases resp with
    | success users =>
        have h2 : findUserWithEmail email users = some u := h
        obtain ⟨hu, l1, l2, hsplit, hmiss⟩ := findUserWithEmail_first email users u h2
        refine ⟨hu, ?_⟩
        intro us hus
        cases hus
        exact ⟨l1, l2, hsplit, hmiss⟩
    | badJson msg => cases h
    | httpError code body =>
        exfalso
        obtain ⟨msg, hmsg⟩ :=
          @pyMakeRequest_httpError_error (List User)
            ("/users?search=" ++ email) code body
        unfold get_user_by_email at h
        rw [hmsg] at h
        cases h
    | urlError reason => cases h
  · intro users hus h
    cases hus
    exact findUserWithEmail_none email users h
  · intro msg hmsg
    cases hmsg
    rfl
  · intro code body hcb
    cases hcb
    obtain ⟨msg, hmsg⟩ :=
      @pyMakeRequest_httpError_error (List User)
        ("/users?search=" ++ email) code body
    unfold get_user_by_email
    rw [hmsg]
  · intro reason hr
    cases hr
    rfl

/-- C5 witness: a search returning two records, the second matching; the
lookup returns it, and its email equals the query. -/
theorem get_user_by_email_exact_witness :
    get_user_by_email ("a@b.c") orcLookup.users_response = some ⟨5, some ("a@b.c")⟩ ∧
    (User.mk 5 (some ("a@b.c"))).email = some ("a@b.c") ∧
    get_user_by_email ("a@b.c") (.httpError 401 (some ("body"))) = none :=
  ⟨by decide,
   ((get_user_by_email_exact ("a@b.c") orcLookup.users_response).1
      ⟨5, some ("a@b.c")⟩ (by decide)).1,
   (get_user_by_email_exact ("a@b.c") (.httpError 401 (some ("body")))).2.2.2.1
      401 (some ("body")) rfl⟩

/-- A populated identity cache short-circuits `get_current_user`: cached
value returned, no request, client unchanged. -/
theorem get_current_user_cached (api : GitLabAPI) (u : User) (resp : JsonResponse User)
    (h : api.current_user = some u) : get_current_user api resp = (.ok u, api, []) := by
  unfold get_current_user
  rw [h]

/-- Any call sequence against a client with a populated cache issues no
request, leaves the client unchanged, and answers every call from the
cache. -/
theorem runCurrentUserCalls_cached (api : GitLabAPI) (u : User)
    (h : api.current_user = some u) :
    ∀ resps, (runCurrentUserCalls api resps).2.2 = 0 ∧
      (runCurrentUserCalls api resps).2.1 = api ∧
      ∀ r ∈ (runCurrentUserCalls api resps).1, r = .ok u := by
  intro resps
  induction resps with
  | nil => exact ⟨rfl, rfl, by intro r hr; cases hr⟩
  | cons r rs ih =>
      obtain ⟨h0, h1, h2⟩ := ih
      refine ⟨?_, ?_, ?_⟩
      · rw [runCurrentUserCalls, get_current_user_cached api u r h]
        simpa using h0
      · rw [runCurrentUserCalls, get_current_user_cached api u r h]
        simpa using h1
      · intro x hx
        rw [runCurrentUserCalls, get_current_user_cached api u r h] at hx
        simp at hx
        rcases hx with rfl | hx2
        · rfl
        · exact h2 x hx2

/-- C6 counterexample: with an empty identity cache, a first call whose
request fails does not populate the cache, so a second call issues another
request — two network requests from `get_current_user` over the lifetime
of one client instance, refuting at most once. -/
theorem current_user_retry_counterexample :
    (runCurrentUserCalls apiX
       [.urlError ("connection refused"), .success ⟨9, none⟩]).2.2 = 2 ∧
    ¬ ((runCurrentUserCalls apiX
          [.urlError ("connection refused"), .success ⟨9, none⟩]).2.2 ≤ 1) :=
  ⟨rfl, by decide⟩

/-- C6 amended: `get_current_user` issues at most one successful network
request: the first successful call populates the cache, and every call on
a populated cache returns the cached value, issues no request, and leaves
the client unchanged; a failed call issues a request, surfaces the error
and leaves the cache empty, so each failing call before the first success
performs its own round trip; `list_mr` never changes a client whose cache
is populated. -/
theorem get_current_user_memoized :
    (∀ (api : GitLabAPI) (u : User) (resp : JsonResponse User),
       api.current_user = some u → get_current_user api resp = (.ok u, api, [])) ∧
    (∀ (api : GitLabAPI) (u : User) (resps : List (JsonResponse User)),
       api.current_user = some u →
         (runCurrentUserCalls api resps).2.2 = 0 ∧
         (runCurrentUserCalls api resps).2.1 = api ∧
         ∀ r ∈ (runCurrentUserCalls api resps).1, r = .ok u) ∧
    (∀ (api : GitLabAPI) (resp : JsonResponse User) (u : User),
       api.current_user = none → pyMakeRequest ("/user") resp = .ok u →
         get_current_user api resp =
           (.ok u, ⟨api.base_url, api.token, api.project_id, some u⟩, [.currentUser])) ∧
    (∀ (api : GitLabAPI) (resp : JsonResponse User) (e : String),
       api.current_user = none → pyMakeRequest ("/user") resp = .error e →
         get_current_user api resp = (.error e, api, [.currentUser])) ∧
    (∀ (env : Env) (orc : ListMrOracle) (state filter_by : String)
       (git_email : Option String) (api : GitLabAPI) (u : User),
       api.current_user = some u →
         (list_mr env (some api) orc state filter_by git_email).2.1 = some api) := by
  refine ⟨get_current_user_cached, fun api u resps h => runCurrentUserCalls_cached api u h resps,
          ?_, ?_, ?_⟩
  · intro api resp u hnone hok
    unfold get_current_user
    rw [hnone, hok]
  · intro api resp e hnone herr
    unfold get_current_user
    rw [hnone, herr]
  · intro env orc state filter_by git_email api u hc
    simp only [list_mr, ensureApi,
               get_current_user_cached api u orc.current_user_response hc]
    split
    · rfl
    split
    · split
      · split
        · rfl
        · split <;> exact (listMrFetch_parts _ _ _ _ _ _ _ _).1
      · split <;> exact (listMrFetch_parts _ _ _ _ _ _ _ _).1
    · exact (listMrFetch_parts _ _ _ _ _ _ _ _).1

/-- C6 witness: a client with a populated cache answers a two-call
sequence with zero requests and the cached record. -/
theorem get_current_user_memoized_witness :
    apiCached.current_user = some ⟨3, some ("c@d")⟩ ∧
    get_current_user apiCached (.urlError ("refused")) =
      (.ok ⟨3, some ("c@d")⟩, apiCached, []) ∧
    (runCurrentUserCalls apiCached
       [.urlError ("refused"), .success ⟨9, none⟩]).2.2 = 0 ∧
    (list_mr envX (some apiCached) orcEmpty ("opened") ("assigned_to_me") none).2.1 =
      some apiCached :=
  ⟨rfl,
   get_current_user_memoized.1 apiCached ⟨3, some ("c@d")⟩ (.urlError ("refused")) rfl,
   (get_current_user_memoized.2.1 apiCached ⟨3, some ("c@d")⟩
      [.urlError ("refused"), .success ⟨9, none⟩] rfl).1,
   get_current_user_memoized.2.2.2.2 envX orcEmpty ("opened") ("assigned_to_me") none
     apiCached ⟨3, some ("c@d")⟩ rfl⟩

/-- C1 counterexample: a 401 on the raw-diff endpoint surfaces through
`download_diff` as the generic raw-diff failure message carrying the raw
response body, not the fixed credential guidance — `get_raw_diffs` has its
own error mapping without a 401 case. -/
theorem download_401_counterexample :
    (download_diff envX (some apiX) orcDiff401 ("7") true).1 =
      .error ("Failed to get diffs: 401 - 401 page body") ∧
    ("Failed to get diffs: 401 - 401 page body" : String) ≠
      ("Authentication failed. Check your GITLAB_TOKEN") :=
  ⟨rfl, by decide⟩

/-- C1 amended: a 401 from the operations routed through `_make_request`
(`get_current_user`, `get_merge_requests`, and hence `list_mr`) surfaces
as the fixed credential guidance, independent of the response body; but
`get_raw_diffs` formats a 401 like any other HTTP error, as
Failed to get diffs: 401 followed by the raw response body. -/
theorem http401_amended :
    (∀ (api : GitLabAPI) (body : Option String),
       api.current_user = none →
         (get_current_user api (.httpError 401 body)).1 =
           .error ("Authentication failed. Check your GITLAB_TOKEN")) ∧
    (∀ (api : GitLabAPI) (state scope : String) (aid sid : Option Int)
       (body : Option String),
       (get_merge_requests api state scope aid sid (.httpError 401 body)).1 =
         .error ("Authentication failed. Check your GITLAB_TOKEN")) ∧
    (∀ (env : Env) (g : Option GitLabAPI) (orc : ListMrOracle) (state : String)
       (body : Option String) (api : GitLabAPI),
       ensureApi env g = .ok api → valid_states.contains state = true →
       orc.merge_requests_response = .httpError 401 body →
         (list_mr env g orc state ("all") none).1 =
           .error ("Authentication failed. Check your GITLAB_TOKEN")) ∧
    (∀ (project_id mr_iid bodytext : String),
       get_raw_diffs project_id mr_iid (.httpError 401 (some bodytext)) =
         .error ("Failed to get diffs: 401 - " ++ bodytext)) := by
  refine ⟨?_, ?_, ?_, ?_⟩
  · intro api body hnone
    unfold get_current_user
    rw [hnone]
    rfl
  · intro api state scope aid sid body
    rfl
  · intro env g orc state body api hapi hstate horc
    simp only [list_mr, listMrFetch, get_merge_requests, hapi, hstate, horc]
    rfl
  · intro project_id mr_iid bodytext
    show Except.error ("Failed to get diffs: " ++ toString (401 : Nat) ++ " - " ++ bodytext) = _
    rw [show ("Failed to get diffs: " ++ toString (401 : Nat) ++ " - " : String) =
          "Failed to get diffs: 401 - " from rfl]

/-- C1 amended witness: concrete 401 responses with a readable body. -/
theorem http401_amended_witness :
    (get_current_user apiX (.httpError 401 (some ("secret body")))).1 =
      .error ("Authentication failed. Check your GITLAB_TOKEN") ∧
    (list_mr envX (some apiX) orc401 ("opened") ("all") none).1 =
      .error ("Authentication failed. Check your GITLAB_TOKEN") ∧
    get_raw_diffs ("proj") ("5") (.httpError 401 (some ("secret body"))) =
      .error ("Failed to get diffs: 401 - " ++ "secret body") :=
  ⟨http401_amended.1 apiX (some ("secret body")) rfl,
   http401_amended.2.2.1 envX (some apiX) orc401 ("opened") (some ("secret body")) apiX
     rfl (by decide) rfl,
   http401_amended.2.2.2 ("proj") ("5") ("secret body")⟩

/-- C3 counterexample: with `git_email` present but equal to the empty
string, the email lookup (had it been performed) would return the record
with id 7, yet `list_mr` treats the empty string as absent — it consults
`get_current_user` and passes the current user id 9 as `author_id`. -/
theorem list_mr_empty_email_counterexample :
    get_user_by_email ("") orcEmptyEmail.users_response = some ⟨7, some ("")⟩ ∧
    (list_mr envX (some apiX) orcEmptyEmail ("opened") ("created_by_me")
       (some (""))).2.2 =
      [.currentUser, .mergeRequests ("opened") ("all") (some 9) none] ∧
    (User.mk 7 (some (""))).id ≠ 9 :=
  ⟨by decide, by decide, by decide⟩

/-- C3 amended: when `list_mr` is called with `filter_by` created_by_me
and a non-empty `git_email` for which the email lookup returns a user
record, the `author_id` passed to `get_merge_requests` equals the id of
that record, `get_current_user` is not consulted (no identity request, and
the client is returned unchanged), and `assignee_id` stays unset.  (An
empty-string `git_email` is treated as absent and falls back to the
current user.) -/
theorem list_mr_created_by_me_email (env : Env) (g : Option GitLabAPI) (orc : ListMrOracle)
    (state email : String) (u : User) (api : GitLabAPI)
    (hapi : ensureApi env g = .ok api)
    (hstate : valid_states.contains state = true)
    (hne : email ≠ "")
    (hlookup : get_user_by_email email orc.users_response = some u) :
    (list_mr env g orc state ("created_by_me") (some email)).2.2 =
      [.userSearch email, .mergeRequests state ("all") (some u.id) none] ∧
    (list_mr env g orc state ("created_by_me") (some email)).2.1 = some api ∧
    Request.currentUser ∉ (list_mr env g orc state ("created_by_me") (some email)).2.2 := by
  have hem : pyTruthyStr (some email) = true := by
    have hie : email.isEmpty = false := by
      rw [← Bool.not_eq_true]
      intro hh
      exact hne ((String.isEmpty_iff email).mp hh)
    simp [pyTruthyStr, hie]
  have key : list_mr env g orc state ("created_by_me") (some email) =
      listMrFetch api orc state ("created_by_me") (some email) (some u.id) none
        [.userSearch email] := by
    simp only [list_mr, hapi, hstate, hem, Option.getD_some, hlookup]
    rfl
  rw [key]
  obtain ⟨hcl, hreq⟩ := listMrFetch_parts api orc state ("created_by_me") (some email)
    (some u.id) none [.userSearch email]
  refine ⟨?_, hcl, ?_⟩
  · rw [hreq]; rfl
  · rw [hreq]; simp

/-- C3 amended witness: a concrete resolvable non-empty email. -/
theorem list_mr_created_by_me_email_witness :
    (list_mr envX (some apiX) orcLookup ("opened") ("created_by_me")
       (some ("a@b.c"))).2.2 =
      [.userSearch ("a@b.c"), .mergeRequests ("opened") ("all") (some 5) none] ∧
    (list_mr envX (some apiX) orcLookup ("opened") ("created_by_me")
       (some ("a@b.c"))).2.1 = some apiX ∧
    Request.currentUser ∉
      (list_mr envX (some apiX) orcLookup ("opened") ("created_by_me")
         (some ("a@b.c"))).2.2 :=
  list_mr_created_by_me_email envX (some apiX) orcLookup ("opened") ("a@b.c")
    ⟨5, some ("a@b.c")⟩ apiX rfl (by decide) (by decide) (by decide)

/-- C9: `list_mr` never validates `filter_by`: any value outside the two
user filters — misspellings included — yields the result computed exactly
as for the value all (same single listing request with no author or
assignee filter, no identity resolution, no error) with the invalid value
echoed back in the filter field of the result. -/
theorem list_mr_unvalidated_filter_by (env : Env) (g : Option GitLabAPI) (orc : ListMrOracle)
    (state filter_by : String) (git_email : Option String) (api : GitLabAPI)
    (hapi : ensureApi env g = .ok api)
    (hstate : valid_states.contains state = true)
    (h1 : filter_by ≠ "assigned_to_me") (h2 : filter_by ≠ "created_by_me") :
    (∀ mrs, orc.merge_requests_response = .success mrs →
       list_mr env g orc state filter_by git_email =
         (.ok (_display_merge_requests mrs false) (mrs.map formatMR) mrs.length
            ⟨state, filter_by, git_email⟩,
          some api, [.mergeRequests state ("all") none none])) ∧
    (list_mr env g orc state filter_by git_email).2.2 =
      (list_mr env g orc state ("all") git_email).2.2 := by
  have hfb : (filter_by = "assigned_to_me" ∨ filter_by = "created_by_me") = False := by
    simp [h1, h2]
  have hall : (("all" : String) = "assigned_to_me" ∨
               ("all" : String) = "created_by_me") = False := by
    simp
  constructor
  · intro mrs hmrs
    simp only [list_mr, hapi, hstate, hfb, if_false, listMrFetch, get_merge_requests,
               hmrs, pyMakeRequest]
    simp
  · have e1 := (listMrFetch_parts api orc state filter_by git_email none none []).2
    have e2 := (listMrFetch_parts api orc state ("all") git_email none none []).2
    simp only [list_mr, hapi, hstate, hfb, hall, if_false,
               if_neg (show ¬((true : Bool) = false) by decide)]
    rw [e1, e2]

/-- C9 witness: a misspelled filter value behaves as all and is echoed. -/
theorem list_mr_unvalidated_filter_by_witness :
    list_mr envX (some apiX) orcOne ("opened") ("asigned_to_me") none =
      (.ok (_display_merge_requests [mrSample] false) ([mrSample].map formatMR)
         ([mrSample] : List MergeRequest).length ⟨"opened", "asigned_to_me", none⟩,
       some apiX, [.mergeRequests ("opened") ("all") none none]) ∧
    (list_mr envX (some apiX) orcOne ("opened") ("asigned_to_me") none).2.2 =
      (list_mr envX (some apiX) orcOne ("opened") ("all") none).2.2 :=
  ⟨(list_mr_unvalidated_filter_by envX (some apiX) orcOne ("opened") ("asigned_to_me")
      none apiX rfl (by decide) (by decide) (by decide)).1 [mrSample] rfl,
   (list_mr_unvalidated_filter_by envX (some apiX) orcOne ("opened") ("asigned_to_me")
      none apiX rfl (by decide) (by decide) (by decide)).2⟩

/-- Every character `Nat.digitChar` produces for a value below 10 is a
decimal digit. -/
theorem digitChar_isDigit (m : Nat) (h : m < 10) : (Nat.digitChar m).isDigit = true := by
  interval_cases m <;> decide

/-- The core digit accumulator only ever conses digit characters. -/
theorem toDigitsCore_digits (fuel : Nat) :
    ∀ (n : Nat) (ds : List Char), (∀ c ∈ ds, c.isDigit = true) →
      ∀ c ∈ Nat.toDigitsCore 10 fuel n ds, c.isDigit = true := by
  induction fuel with
  | zero =>
      intro n ds h c hc
      rw [Nat.toDigitsCore] at hc
      exact h c hc
  | succ f ih =>
      intro n ds h c hc
      rw [Nat.toDigitsCore] at hc
      by_cases h0 : n / 10 = 0
      · rw [if_pos h0] at hc
        rcases List.mem_cons.mp hc with rfl | hc2
        · exact digitChar_isDigit _ (Nat.mod_lt _ (by decide))
        · exact h c hc2
      · rw [if_neg h0] at hc
        refine ih (n / 10) _ ?_ c hc
        intro x hx
        rcases List.mem_cons.mp hx with rfl | hx2
        · exact digitChar_isDigit _ (Nat.mod_lt _ (by decide))
        · exact h x hx2

/-- The core digit accumulator never returns the empty list when it starts
from a non-empty accumulator or has fuel. -/
theorem toDigitsCore_ne_nil (fuel : Nat) :
    ∀ (n : Nat) (ds : List Char), ds ≠ [] ∨ fuel ≠ 0 →
      Nat.toDigitsCore 10 fuel n ds ≠ [] := by
  induction fuel with
  | zero =>
      intro n ds h
      rw [Nat.toDigitsCore]
      rcases h with h | h
      · exact h
      · exact absurd rfl h
  | succ f ih =>
      intro n ds _
      rw [Nat.toDigitsCore]
      by_cases h0 : n / 10 = 0
      · rw [if_pos h0]; exact List.cons_ne_nil _ _
      · rw [if_neg h0]; exact ih (n / 10) _ (Or.inl (List.cons_ne_nil _ _))

/-- Every character of the decimal rendering of a natural number is a
decimal digit. -/
theorem natRepr_digits (n : Nat) : ∀ c ∈ (Nat.repr n).data, c.isDigit = true := by
  intro c hc
  have he : (Nat.repr n).data = Nat.toDigitsCore 10 (n + 1) n [] := rfl
  rw [he] at hc
  exact toDigitsCore_digits (n + 1) n [] (by intro x hx; cases hx) c hc

/-- The decimal rendering of a natural number is never empty. -/
theorem natRepr_ne_nil (n : Nat) : (Nat.repr n).data ≠ [] := by
  have he : (Nat.repr n).data = Nat.toDigitsCore 10 (n + 1) n [] := rfl
  rw [he]
  exact toDigitsCore_ne_nil (n + 1) n [] (Or.inr (Nat.succ_ne_zero n))

/-- The state emoji is a single character among the three the formatter
uses. -/
theorem statusEmoji_single (s : String) :
    ∃ c, (statusEmoji s).data = [c] ∧ (c = '🟢' ∨ c = '🔴' ∨ c = '🟡') := by
  unfold statusEmoji
  by_cases h1 : s = "opened"
  · rw [if_pos h1]; exact ⟨'🟢', rfl, Or.inl rfl⟩
  · rw [if_neg h1]
    by_cases h2 : s = "closed"
    · rw [if_pos h2]; exact ⟨'🔴', rfl, Or.inr (Or.inl rfl)⟩
    · rw [if_neg h2]; exact ⟨'🟡', rfl, Or.inr (Or.inr rfl)⟩

/-- Appending a suffix does not change the character at position 3 when the
prefix determines it. -/
theorem data_get3_append (a s : String) (c : Char) (h : a.data[3]? = some c) :
    (a ++ s).data[3]? = some c := by
  rw [String.data_append]
  obtain ⟨hlt, -⟩ := List.getElem?_eq_some.mp h
  rw [List.getElem?_append_left hlt]
  exact h

/-- A line whose character at position 3 is not a detail marker is not a
detail line. -/
theorem notDetail_of_get3 (line : String) (c : Char) (h : line.data[3]? = some c)
    (hc : c ∉ detailMarkers) : ¬ isDetailLine line := by
  rintro ⟨m, hm, hline⟩
  rw [h] at hline
  cases hline
  exact hc hm

/-- A line with no character at position 3 is not a detail line. -/
theorem notDetail_of_none (line : String) (h : line.data[3]? = none) :
    ¬ isDetailLine line := by
  rintro ⟨m, hm, hline⟩
  rw [h] at hline
  cases hline

/-- The character at position 3 of an ordinal/title display line is a
decimal digit, a dot, a blank, or one of the three state emoji — whatever
the ordinal, the record and the title. -/
theorem titleLine_get3 (i : Nat) (em iidStr title : String)
    (hem : ∃ c0, em.data = [c0] ∧ (c0 = '🟢' ∨ c0 = '🔴' ∨ c0 = '🟡')) :
    ∃ c, (Nat.repr i ++ ". " ++ em ++ " MR !" ++ iidStr ++ " - " ++
          title).data[3]? = some c ∧
      (c.isDigit = true ∨ c = '.' ∨ c = ' ' ∨ c = '🟢' ∨ c = '🔴' ∨ c = '🟡') := by
  obtain ⟨c0, hemd, hc0⟩ := hem
  have hrne : (Nat.repr i).data ≠ [] := natRepr_ne_nil i
  have hrpos : 0 < (Nat.repr i).data.length := List.length_pos.mpr hrne
  have hdata : (Nat.repr i ++ ". " ++ em ++ " MR !" ++ iidStr ++ " - " ++ title).data =
      (Nat.repr i).data ++
        ('.' :: ' ' :: c0 :: ((" MR !" ++ iidStr ++ " - " ++ title).data)) := by
    simp [String.data_append, hemd]
  rw [hdata]
  by_cases h3 : 3 < (Nat.repr i).data.length
  · rw [List.getElem?_append_left h3]
    obtain ⟨c, hc⟩ : ∃ c, (Nat.repr i).data[3]? = some c :=
      ⟨(Nat.repr i).data[3], List.getElem?_eq_getElem h3⟩
    exact ⟨c, hc, Or.inl (natRepr_digits i c (List.getElem?_mem hc))⟩
  · have hle : (Nat.repr i).data.length ≤ 3 := by omega
    rw [List.getElem?_append_right hle]
    have hcase : (Nat.repr i).data.length = 1 ∨ (Nat.repr i).data.length = 2 ∨
        (Nat.repr i).data.length = 3 := by omega
    rcases hcase with h | h | h <;> rw [h]
    · exact ⟨c0, rfl, by rcases hc0 with rfl | rfl | rfl <;> simp⟩
    · exact ⟨' ', rfl, by simp⟩
    · exact ⟨'.', rfl, by simp⟩

/-- The detail markers are neither digits, dot, blank, nor state emoji. -/
theorem detailMarkers_exclude :
    ∀ c ∈ detailMarkers, c.isDigit = false ∧ c ≠ '.' ∧ c ≠ ' ' ∧
      c ≠ '🟢' ∧ c ≠ '🔴' ∧ c ≠ '🟡' := by decide

/-- The ordinal/title line is never a detail line. -/
theorem titleLine_not_detail (i : Nat) (mr : MergeRequest) :
    ¬ isDetailLine (toString i ++ ". " ++ statusEmoji mr.state ++ " MR !" ++
                    toString mr.iid ++ " - " ++ mr.title) := by
  obtain ⟨c, hc, hprop⟩ := titleLine_get3 i (statusEmoji mr.state) (toString mr.iid)
    mr.title (statusEmoji_single mr.state)
  refine notDetail_of_get3 _ c hc ?_
  intro hmem
  obtain ⟨e1, e2, e3, e4, e5, e6⟩ := detailMarkers_exclude c hmem
  rcases hprop with hd | rfl | rfl | rfl | rfl | rfl
  · rw [hd] at e1; cases e1
  · exact e2 rfl
  · exact e3 rfl
  · exact e4 rfl
  · exact e5 rfl
  · exact e6 rfl

/-- With details off, no line of one display entry is a detail line. -/
theorem entryLines_not_detail (i : Nat) (mr : MergeRequest) :
    ∀ line ∈ mrEntryLines i mr false, ¬ isDetailLine line := by
  intro line hline
  simp [mrEntryLines, mrHeadLines] at hline
  rcases hline with h | h | h | h | h | h
  · rw [h]; exact titleLine_not_detail i mr
  · rw [h]
    exact notDetail_of_get3 _ '👤'
      (data_get3_append ("   👤 Author: ") mr.author.name '👤' (by decide)) (by decide)
  · rw [h]
    exact notDetail_of_get3 _ '🌿'
      (data_get3_append (("   🌿 Source: " ++ mr.source_branch) ++ " → ")
        mr.target_branch '🌿'
        (data_get3_append ("   🌿 Source: " ++ mr.source_branch) (" → ") '🌿'
          (data_get3_append ("   🌿 Source: ") mr.source_branch '🌿' (by decide))))
      (by decide)
  · rw [h]
    exact notDetail_of_get3 _ '📅'
      (data_get3_append ("   📅 Created: ") (mr.created_at.take 10) '📅' (by decide))
      (by decide)
  · rw [h]
    exact notDetail_of_get3 _ '🔗'
      (data_get3_append ("   🔗 URL: ") mr.web_url '🔗' (by decide)) (by decide)
  · rw [h]
    exact notDetail_of_none ("") (by decide)

/-- The count header line is never a detail line. -/
theorem header1_not_detail (n : Nat) :
    ¬ isDetailLine ("\nMerge Requests (" ++ toString n ++ " found):") :=
  notDetail_of_get3 _ 'r'
    (data_get3_append ("\nMerge Requests (" ++ toString n) (" found):") 'r'
      (data_get3_append ("\nMerge Requests (") (toString n) 'r' (by decide)))
    (by decide)

/-- Every line of the detail block carries a detail marker at position 3. -/
theorem detailLines_marked (mr : MergeRequest) :
    ∀ line ∈ mrDetailLines mr, isDetailLine line := by
  have hdesc : isDetailLine ("   📝 Description: " ++
      (mr.description.getD ("No description")).take 100 ++ "...") :=
    ⟨'📝', by decide,
     data_get3_append ("   📝 Description: " ++
         (mr.description.getD ("No description")).take 100) ("...") '📝'
       (data_get3_append ("   📝 Description: ")
         ((mr.description.getD ("No description")).take 100) '📝' (by decide))⟩
  have hup : isDetailLine ("   ✅ Upvotes: " ++ toString (mr.upvotes.getD 0)) :=
    ⟨'✅', by decide,
     data_get3_append ("   ✅ Upvotes: ") (toString (mr.upvotes.getD 0)) '✅' (by decide)⟩
  have hdown : isDetailLine ("   ❌ Downvotes: " ++ toString (mr.downvotes.getD 0)) :=
    ⟨'❌', by decide,
     data_get3_append ("   ❌ Downvotes: ") (toString (mr.downvotes.getD 0)) '❌'
       (by decide)⟩
  have hass : isDetailLine ("   👥 Assignees: " ++
      String.intercalate (", ") (mr.assignees.map Author.name)) :=
    ⟨'👥', by decide,
     data_get3_append ("   👥 Assignees: ")
       (String.intercalate (", ") (mr.assignees.map Author.name)) '👥' (by decide)⟩
  have hlab : isDetailLine ("   🏷️  Labels: " ++ String.intercalate (", ") mr.labels) :=
    ⟨'🏷', by decide,
     data_get3_append ("   🏷️  Labels: ") (String.intercalate (", ") mr.labels) '🏷'
       (by decide)⟩
  intro line hline
  rcases hA : mr.assignees.isEmpty <;> rcases hL : mr.labels.isEmpty <;>
    simp [mrDetailLines, hA, hL] at hline
  · rcases hline with h | h | h | h | h
    · rw [h]; exact hdesc
    · rw [h]; exact hup
    · rw [h]; exact hdown
    · rw [h]; exact hass
    · rw [h]; exact hlab
  · rcases hline with h | h | h | h
    · rw [h]; exact hdesc
    · rw [h]; exact hup
    · rw [h]; exact hdown
    · rw [h]; exact hass
  · rcases hline with h | h | h | h
    · rw [h]; exact hdesc
    · rw [h]; exact hup
    · rw [h]; exact hdown
    · rw [h]; exact hlab
  · rcases hline with h | h | h
    · rw [h]; exact hdesc
    · rw [h]; exact hup
    · rw [h]; exact hdown

/-- With two or more records and default formatting, no display line is a
detail line. -/
theorem displayOutput_not_detail (mrs : List MergeRequest) (h2 : 2 ≤ mrs.length) :
    ∀ line ∈ displayOutput mrs false, ¬ isDetailLine line := by
  intro line hline
  have hne1 : mrs.length ≠ 1 := by omega
  simp only [displayOutput, if_neg hne1, List.mem_cons, List.mem_flatten,
             List.mem_map] at hline
  rcases hline with h | h | ⟨l, ⟨p, hp, hpl⟩, hl⟩
  · rw [h]; exact header1_not_detail mrs.length
  · rw [h]; exact notDetail_of_get3 _ '=' (by decide) (by decide)
  · rw [← hpl] at hl
    exact entryLines_not_detail (p.1 + 1) p.2 line hl

/-- A single-record display forces the detail block on, whatever
`show_details` was passed. -/
theorem displayOutput_single (mr : MergeRequest) (show_details : Bool) :
    displayOutput [mr] show_details =
      ("\nMerge Requests (" ++ toString (1 : Nat) ++ " found):")
        :: String.mk (List.replicate 60 '=')
        :: (mrEntryLines 1 mr true ++ []) := by rfl

/-- C4: for a result list of exactly one record, the display lines include
the detail fields — truncated description, upvote count, downvote count,
and, when non-empty, the assignee and label lines — for every value of the
`show_details` argument; every line of the detail block is recognizable by
its position-3 marker; and for lists of two or more records with the
default formatting no produced line carries any detail marker.
(`_display_merge_requests` joins exactly these lines with newlines.) -/
theorem display_details_forced_by_count :
    (∀ (mr : MergeRequest) (show_details : Bool),
       ("   📝 Description: " ++ (mr.description.getD ("No description")).take 100 ++
          "...") ∈ displayOutput [mr] show_details ∧
       ("   ✅ Upvotes: " ++ toString (mr.upvotes.getD 0)) ∈
          displayOutput [mr] show_details ∧
       ("   ❌ Downvotes: " ++ toString (mr.downvotes.getD 0)) ∈
          displayOutput [mr] show_details ∧
       (mr.assignees.isEmpty = false →
          ("   👥 Assignees: " ++ String.intercalate (", ") (mr.assignees.map Author.name))
            ∈ displayOutput [mr] show_details) ∧
       (mr.labels.isEmpty = false →
          ("   🏷️  Labels: " ++ String.intercalate (", ") mr.labels)
            ∈ displayOutput [mr] show_details)) ∧
    (∀ mr, ∀ line ∈ mrDetailLines mr, isDetailLine line) ∧
    (∀ (mrs : List MergeRequest), 2 ≤ mrs.length →
       ∀ line ∈ displayOutput mrs false, ¬ isDetailLine line) := by
  refine ⟨?_, detailLines_marked, displayOutput_not_detail⟩
  intro mr show_details
  rw [displayOutput_single]
  refine ⟨?_, ?_, ?_, ?_, ?_⟩
  · simp [mrEntryLines, mrDetailLines]
  · simp [mrEntryLines, mrDetailLines]
  · simp [mrEntryLines, mrDetailLines]
  · intro hA; simp [mrEntryLines, mrDetailLines, hA]
  · intro hL; simp [mrEntryLines, mrDetailLines, hL]

/-- C4 witness: the sample records; detail lines present for the singleton
even with details requested off, absent for the two-element list. -/
theorem display_details_forced_by_count_witness :
    ("   📝 Description: " ++ (mrSample.description.getD ("No description")).take 100 ++
       "...") ∈ displayOutput [mrSample] false ∧
    mrSample.labels.isEmpty = false ∧
    ("   🏷️  Labels: " ++ String.intercalate (", ") mrSample.labels)
        ∈ displayOutput [mrSample] false ∧
    ("   ✅ Upvotes: " ++ toString (mrSample.upvotes.getD 0)) ∈ mrDetailLines mrSample ∧
    isDetailLine ("   ✅ Upvotes: " ++ toString (mrSample.upvotes.getD 0)) ∧
    2 ≤ ([mrSample, mrSample2] : List MergeRequest).length ∧
    ("   👤 Author: Alice") ∈ displayOutput [mrSample, mrSample2] false ∧
    ¬ isDetailLine ("   👤 Author: Alice") :=
  ⟨(display_details_forced_by_count.1 mrSample false).1,
   by decide,
   (display_details_forced_by_count.1 mrSample false).2.2.2.2 (by decide),
   by decide,
   display_details_forced_by_count.2.1 mrSample _ (by decide),
   by decide,
   by decide,
   display_details_forced_by_count.2.2 [mrSample, mrSample2] (by decide) _ (by decide)⟩

end GitLabMr
